import Mathlib

/-!
Shallow embedding of `ts/torch_handler/base_handler.py` (class `BaseHandler`):
the initialization protocol (device resolution, optional vendor acceleration
probe, artifact and model-format resolution, label-mapping load) and the
abstract pipeline stage methods.

External collaborators (the filesystem, the CUDA capability probe, the
`intel_pytorch_extension` library, `lscpu` output, `os.environ`, the Python
module importer) are modelled as an explicit `Host` record; `initialize`
is a pure function of the host, the handler state and the deployment
context, returning the final handler state, the raised error (if any),
the resulting process environment and the emitted warnings.
-/

namespace BaseHandler

/-- `ctx.manifest['model']`: the model-format descriptor of the packaged
model, with the required serialized-artifact filename and the optional
model-definition filename. -/
structure ModelManifest where
  serializedFile : String
  modelFile : Option String
deriving Repr, DecidableEq

/-- The deployment context handed to `initialize`: the manifest plus the
`system_properties` entries the code reads (`model_dir`, `gpu_id`). -/
structure Context where
  manifest : ModelManifest
  model_dir : String
  gpu_id : Option Nat
deriving Repr, DecidableEq

/-- Python `str(properties.get("gpu_id"))`: `str(None)` is `"None"`. -/
def pyStr : Option Nat → String
  | Option.none => "None"
  | Option.some n => toString n

/-- `os.path.join(dir, file)` for the relative paths the handler builds. -/
def pathJoin (dir file : String) : String :=
  if (dir.data.getLast?).any (fun c => c == '/') then dir ++ file
  else dir ++ "/" ++ file

/-- A process environment (`os.environ`) as an association list. -/
abbrev Env := List (String × String)

/-- `os.environ.get k`. -/
def envGet (e : Env) (k : String) : Option String :=
  (e.find? (fun p => p.1 == k)).map (fun p => p.2)

/-- `os.environ[k] = v`. -/
def envSet (e : Env) (k v : String) : Env :=
  (k, v) :: e.filter (fun p => p.1 != k)

/-- Does the second character list start with the first? -/
def startsWithChars : List Char → List Char → Bool
  | [], _ => true
  | _ :: _, [] => false
  | p :: ps, c :: cs => p == c && startsWithChars ps cs

/-- Python substring containment `pat in s`, over character lists. -/
def containsChars (pat : List Char) : List Char → Bool
  | [] => startsWithChars pat []
  | c :: cs => startsWithChars pat (c :: cs) || containsChars pat cs

/-- Python `str.split(sep)` for a one-character separator: split at every
occurrence, keeping empty pieces; the result is never empty. -/
def splitOnChar (sep : Char) : List Char → List (List Char)
  | [] => [[]]
  | c :: cs =>
    match splitOnChar sep cs with
    | [] => [[c]]
    | g :: gs => if c == sep then [] :: g :: gs else (c :: g) :: gs

/-- Python `str.strip()`: drop leading and trailing whitespace. -/
def trimChars (l : List Char) : List Char :=
  ((l.dropWhile Char.isWhitespace).reverse.dropWhile Char.isWhitespace).reverse

/-- Digit accumulator for `parseIntChars`. -/
def digitsToNat : List Char → Nat → Option Nat
  | [], acc => Option.some acc
  | c :: cs, acc =>
    if c.isDigit then digitsToNat cs (acc * 10 + (c.toNat - '0'.toNat))
    else Option.none

/-- Python `int(s)` on an already-stripped token: optional sign followed by
at least one digit, `none` when the call raises `ValueError`. -/
def parseIntChars : List Char → Option Int
  | [] => Option.none
  | '-' :: rest =>
    match rest with
    | [] => Option.none
    | _ => (digitsToNat rest 0).map (fun n => -(n : Int))
  | '+' :: rest =>
    match rest with
    | [] => Option.none
    | _ => (digitsToNat rest 0).map (fun n => (n : Int))
  | l => (digitsToNat l 0).map (fun n => (n : Int))

/-- `val.strip().split(" ")[-1]`: the last single-space-separated token of
the stripped line (as a character list). `splitOnChar` never returns
`[]`, so the default of `getLastD` is never used. -/
def lastToken (val : String) : List Char :=
  (splitOnChar ' ' (trimChars val.data)).getLastD []

/-- The comprehension
`[val.strip().split(" ")[-1] for val in lscpu if "per core" in val]`. -/
def perCoreTokens (lscpu : List String) : List (List Char) :=
  (lscpu.filter (fun val => containsChars "per core".data val.data)).map lastToken

/-- The test `len(per_core) > 0 and int(per_core[0]) == 1`:
`some b` when the test evaluates to `b`, `none` when `int(...)` raises
(non-numeric token). On `[]` the `and` short-circuits to `False`. -/
def perCoreIsOne (lscpu : List String) : Option Bool :=
  match perCoreTokens lscpu with
  | [] => Option.some false
  | t :: _ =>
    match parseIntChars t with
    | Option.none => Option.none
    | Option.some n => Option.some (n == 1)

/-- The host environment `initialize` interacts with: CUDA availability,
the optional `intel_pytorch_extension` library (whether its import
succeeds, its `DEVICE` string, whether `enable_auto_mix_precision`
raises), the `lscpu` output lines, the filesystem `isfile` predicate,
the parsed JSON content of mapping files, the class enumeration of the
loadable modules, and the initial process environment. -/
structure Host where
  cuda_available : Bool
  ipex_available : Bool
  ipex_device : String
  mix_precision_fails : Bool
  lscpu_lines : List String
  isfile : String → Bool
  json_content : String → List (String × String)
  module_classes : String → List String
  env : Env

/-- Modelled from the spec: `list_classes_from_module`
(`ts/utils/util.py`, imported by the handler but not part of the given
source) enumerates all model-class definitions declared directly in a
loaded module, not those brought in from elsewhere; the host supplies
that enumeration per module name. -/
def list_classes_from_module (host : Host) (moduleName : String) : List String :=
  host.module_classes moduleName

/-- Where a model handle came from: the eager branch (instantiate the one
declared class, `torch.load` the state dict onto it) or the torchscript
branch (`torch.jit.load` of the artifact). -/
inductive ModelSource where
  | eager (className : String) (stateDictPath : String) (map_location : String)
  | torchscript (path : String) (map_location : String)
deriving Repr, DecidableEq

/-- The loaded model handle: its source, the device it resides on after
`.to(self.device)`, and whether `.eval()` has been called. -/
structure ModelHandle where
  source : ModelSource
  device : String
  evalMode : Bool
deriving Repr, DecidableEq

/-- The errors `initialize` raises itself:
`RuntimeError("Missing the model.pt file")` and
`ValueError("Expected only one class as model definition. ...")`
carrying the candidate list. -/
inductive InitError where
  | missingArtifact (msg : String)
  | ambiguousModelDefinition (candidates : List String)
deriving Repr, DecidableEq

/-- The handler instance fields set by `__init__` and mutated by
`initialize`. -/
structure HState where
  model : Option ModelHandle
  mapping : Option (List (String × String))
  device : Option String
  initialized : Bool
  manifest : Option ModelManifest
deriving Repr, DecidableEq

/-- `__init__`: everything empty, `initialized = False`. -/
def HState.mk0 : HState :=
  { model := Option.none, mapping := Option.none, device := Option.none
    initialized := false, manifest := Option.none }

/-- Lines 36-38: `map_location = 'cuda' if cuda else 'cpu'`;
`self.device = torch.device(map_location + ":" + str(gpu_id) if cuda
else map_location)`. The device is modelled by its device string. -/
def resolveDevice (cuda_available : Bool) (gpu_id : Option Nat) : String :=
  if cuda_available then "cuda:" ++ pyStr gpu_id else "cpu"

/-- Outcome of the vendor acceleration probe: the device after the probe,
the process environment after it, and whether auto-mixed-precision mode
was enabled. -/
structure ProbeResult where
  device : String
  env : Env
  mixEnabled : Bool
deriving Repr, DecidableEq

/-- Lines 39-55, the `try`/bare-`except` block taken on the cpu path:
it loads `intel_pytorch_extension`; on success switch `self.device` to its
`DEVICE`, enable auto-mixed-precision unless `IPEX_DISABLE_MIXED_PRECISION`
is set, then parse `lscpu` and write `KMP_AFFINITY`. Any exception is
swallowed, keeping the mutations already performed. -/
def probe (host : Host) (device0 : String) (env0 : Env) : ProbeResult :=
  if host.ipex_available then
    let dev := host.ipex_device
    let wantMix := envGet env0 "IPEX_DISABLE_MIXED_PRECISION" == Option.none
    if wantMix && host.mix_precision_fails then
      { device := dev, env := env0, mixEnabled := false }
    else
      match perCoreIsOne host.lscpu_lines with
      | Option.none => { device := dev, env := env0, mixEnabled := wantMix }
      | Option.some b =>
        let profile :=
          if b then "granularity=fine,verbose,compact"
          else "granularity=fine,verbose,compact,1,0"
        { device := dev, env := envSet env0 "KMP_AFFINITY" profile
          mixEnabled := wantMix }
  else
    { device := device0, env := env0, mixEnabled := false }

/-- The full outcome of a call to `initialize`: the handler state when the
call returned or raised, the raised error if any, the process environment
afterwards, whether auto-mixed-precision was enabled, and the warning
messages logged. -/
structure InitResult where
  state : HState
  error : Option InitError
  env : Env
  mixEnabled : Bool
  warnings : List String
deriving Repr, DecidableEq

/-- The warning logged when `index_to_name.json` is absent. -/
def missingMappingWarning : String :=
  "Missing the index_to_name.json file. Inference output will not include class name."

/-- `BaseHandler.initialize(self, ctx)`, embedded step by step in source
order: assign `self.manifest`; resolve the device from CUDA availability
and `gpu_id`; on the cpu path run the vendor acceleration probe; check the
serialized artifact file and raise `RuntimeError` if absent; resolve the
model format (eager state-dict module vs torchscript), raising
`ValueError` unless the imported module declares exactly one class; move
the model to the device and switch it to eval mode; load
`index_to_name.json` if present, else log a warning; set
`self.initialized = True`. On a raise, the fields mutated so far are kept
in the returned state. -/
def initializeHandler (host : Host) (st0 : HState) (ctx : Context) : InitResult :=
  let st1 := { st0 with manifest := Option.some ctx.manifest }
  let model_dir := ctx.model_dir
  let map_location := if host.cuda_available then "cuda" else "cpu"
  let device0 := resolveDevice host.cuda_available ctx.gpu_id
  let pr :=
    if map_location == "cpu" then probe host device0 host.env
    else { device := device0, env := host.env, mixEnabled := false }
  let st2 := { st1 with device := Option.some pr.device }
  let serialized_file := ctx.manifest.serializedFile
  let model_pt_path := pathJoin model_dir serialized_file
  if !(host.isfile model_pt_path) then
    { state := st2
      error := Option.some (InitError.missingArtifact "Missing the model.pt file")
      env := pr.env, mixEnabled := pr.mixEnabled, warnings := [] }
  else
    let model_file := ctx.manifest.modelFile.getD ""
    let model_def_path := pathJoin model_dir model_file
    let loaded : Except InitError ModelHandle :=
      if host.isfile model_def_path then
        let moduleName := String.mk ((splitOnChar '.' model_file.data).headD [])
        let model_class_definitions := list_classes_from_module host moduleName
        if model_class_definitions.length != 1 then
          Except.error (InitError.ambiguousModelDefinition model_class_definitions)
        else
          Except.ok
            { source := ModelSource.eager (model_class_definitions.headD "")
                model_pt_path map_location
              device := "cpu", evalMode := false }
      else
        Except.ok
          { source := ModelSource.torchscript model_pt_path map_location
            device := map_location, evalMode := false }
    match loaded with
    | Except.error e =>
      { state := st2, error := Option.some e
        env := pr.env, mixEnabled := pr.mixEnabled, warnings := [] }
    | Except.ok m0 =>
      let m := { m0 with device := pr.device, evalMode := true }
      let st3 := { st2 with model := Option.some m }
      let mapping_file_path := pathJoin model_dir "index_to_name.json"
      let mappingAndWarnings :=
        if host.isfile mapping_file_path then
          (Option.some (host.json_content mapping_file_path),
           ([] : List String))
        else
          (Option.none, [missingMappingWarning])
      let st4 := { st3 with mapping := mappingAndWarnings.1, initialized := true }
      { state := st4, error := Option.none
        env := pr.env, mixEnabled := pr.mixEnabled
        warnings := mappingAndWarnings.2 }

/-- `@abc.abstractmethod def preprocess(self, data): pass` — when invoked
(e.g. via `super()` from a subclass), the body `pass` returns `None` and
raises nothing, whatever the handler state. -/
def preprocess (_st : HState) (_data : List String) : Except String (Option Unit) :=
  Except.ok Option.none

/-- `@abc.abstractmethod def inference(self, data): pass` — same shape as
`preprocess`: the body returns `None` and raises nothing. -/
def inference (_st : HState) (_data : List String) : Except String (Option Unit) :=
  Except.ok Option.none

/-- `@abc.abstractmethod def postprocess(self, data): pass` — same shape:
the body returns `None` and raises nothing. -/
def postprocess (_st : HState) (_data : List String) : Except String (Option Unit) :=
  Except.ok Option.none

/-- Lookup in the retained label mapping by JSON key. -/
def mappingLookup (m : List (String × String)) (k : String) : Option String :=
  (m.find? (fun p => p.1 == k)).map (fun p => p.2)

end BaseHandler

namespace BaseHandler

/-- The module-class enumeration `initializeHandler` consults for a
context: `list_classes_from_module(import_module(model_file.split(".")[0]))`. -/
def declaredClasses (host : Host) (ctx : Context) : List String :=
  list_classes_from_module host
    (String.mk ((splitOnChar '.' (ctx.manifest.modelFile.getD "").data).headD []))

end BaseHandler

open BaseHandler

/-- A cpu-only host whose filesystem contains only `/m/model.pt`. -/
def hostCpu : Host :=
  { cuda_available := false, ipex_available := false, ipex_device := "dpcpp"
    mix_precision_fails := false, lscpu_lines := []
    isfile := fun p => p == "/m/model.pt"
    json_content := fun _ => []
    module_classes := fun _ => []
    env := [] }

/-- A context for `/m` with a torchscript-only manifest and no `gpu_id`. -/
def ctxPlain : Context :=
  { manifest := { serializedFile := "model.pt", modelFile := Option.none }
    model_dir := "/m", gpu_id := Option.none }

/-- A host with an empty filesystem. -/
def hostNoFile : Host := { hostCpu with isfile := fun _ => false }

/-- A CUDA host (no vendor library). -/
def hostCuda : Host := { hostCpu with cuda_available := true }

/-- A cpu host where the vendor library imports but
`enable_auto_mix_precision` raises. -/
def hostIpexMixFail : Host :=
  { hostCpu with ipex_available := true, mix_precision_fails := true }

/-- A cpu host with the vendor library working and hyperthreaded topology. -/
def hostIpex : Host :=
  { hostCpu with
    ipex_available := true,
    lscpu_lines := ["Thread(s) per core:    2", "Core(s) per socket:    4"] }

/-- A cpu host whose model dir also holds a model-definition file declaring
exactly one class. -/
def hostEager : Host :=
  { hostCpu with
    isfile := fun p => p == "/m/model.pt" || p == "/m/model.py",
    module_classes := fun n => if n == "model" then ["Net"] else [] }

/-- Like `hostEager` but the module declares two classes. -/
def hostEagerTwo : Host :=
  { hostEager with
    module_classes := fun n => if n == "model" then ["Net", "Net2"] else [] }

/-- A cpu host whose model dir also holds `index_to_name.json` mapping
`"0"` to `"cat"` and `"1"` to `"dog"`. -/
def hostMapping : Host :=
  { hostCpu with
    isfile := fun p => p == "/m/model.pt" || p == "/m/index_to_name.json",
    json_content := fun _ => [("0", "cat"), ("1", "dog")] }

/-- A context whose manifest also names a model-definition file. -/
def ctxEager : Context :=
  { ctxPlain with
    manifest := { serializedFile := "model.pt", modelFile := Option.some "model.py" } }

/-- C1: whenever the joined path `model_dir/serializedFile` is not a
regular file, `initialize` raises `RuntimeError("Missing the model.pt
file")` (the MissingArtifact error) and the `initialized` flag, `false`
before the call, is still `false` afterwards — the handler is left
Failed, never Initialized. -/
theorem C1_missing_artifact (host : Host) (st0 : HState) (ctx : Context)
    (hmiss : host.isfile (pathJoin ctx.model_dir ctx.manifest.serializedFile) = false)
    (hinit : st0.initialized = false) :
    (initializeHandler host st0 ctx).error
        = Option.some (InitError.missingArtifact "Missing the model.pt file")
      ∧ (initializeHandler host st0 ctx).state.initialized = false := by
  unfold initializeHandler
  simp [hmiss, hinit]

/-- C1 witness: a concrete host with an empty filesystem. -/
theorem C1_missing_artifact_witness :
    hostNoFile.isfile (pathJoin ctxPlain.model_dir ctxPlain.manifest.serializedFile) = false
      ∧ HState.mk0.initialized = false
      ∧ ((initializeHandler hostNoFile HState.mk0 ctxPlain).error
            = Option.some (InitError.missingArtifact "Missing the model.pt file")
          ∧ (initializeHandler hostNoFile HState.mk0 ctxPlain).state.initialized = false) :=
  ⟨rfl, rfl, C1_missing_artifact hostNoFile HState.mk0 ctxPlain rfl rfl⟩

/-- C10: `initialize` is not atomic on failure — with the artifact
missing, the call starting from the freshly constructed state has already
assigned `self.manifest` (to the context's manifest) and `self.device`
(to some resolved device) when it raises MissingArtifact, while
`initialized` keeps the `false` it was given at construction. -/
theorem C10_partial_state (host : Host) (ctx : Context)
    (hmiss : host.isfile (pathJoin ctx.model_dir ctx.manifest.serializedFile) = false) :
    (initializeHandler host HState.mk0 ctx).error
        = Option.some (InitError.missingArtifact "Missing the model.pt file")
      ∧ (initializeHandler host HState.mk0 ctx).state.manifest = Option.some ctx.manifest
      ∧ (∃ d, (initializeHandler host HState.mk0 ctx).state.device = Option.some d)
      ∧ (initializeHandler host HState.mk0 ctx).state.initialized = false := by
  unfold initializeHandler
  simp [hmiss, HState.mk0]

/-- C10 witness: concrete empty filesystem. -/
theorem C10_partial_state_witness :
    hostNoFile.isfile (pathJoin ctxPlain.model_dir ctxPlain.manifest.serializedFile) = false
      ∧ ((initializeHandler hostNoFile HState.mk0 ctxPlain).error
            = Option.some (InitError.missingArtifact "Missing the model.pt file")
          ∧ (initializeHandler hostNoFile HState.mk0 ctxPlain).state.manifest
              = Option.some ctxPlain.manifest
          ∧ (∃ d, (initializeHandler hostNoFile HState.mk0 ctxPlain).state.device
              = Option.some d)
          ∧ (initializeHandler hostNoFile HState.mk0 ctxPlain).state.initialized = false) :=
  ⟨rfl, C10_partial_state hostNoFile ctxPlain rfl⟩

/-- C6 counterexample: the claim says a pipeline stage called before a
successful `initialize` raises an "uninitialized" error; but the base
class's stage methods are `@abc.abstractmethod` declarations whose `pass`
bodies return `None` and raise nothing, even on the freshly constructed
(uninitialized) state. -/
theorem C6_counterexample :
    HState.mk0.initialized = false
      ∧ preprocess HState.mk0 ["input"] = Except.ok Option.none
      ∧ inference HState.mk0 ["input"] = Except.ok Option.none
      ∧ postprocess HState.mk0 ["input"] = Except.ok Option.none
      ∧ (preprocess HState.mk0 ["input"]).isOk = true := by
  exact ⟨rfl, rfl, rfl, rfl, rfl⟩

/-- C6 amended: the base class provides no runtime initialization guard:
its three stage methods are abstract declarations with empty bodies that
return `None` and never raise, whatever the handler state; the contract
is enforced only by Python's abstract-base-class instantiation check on
subclasses. -/
theorem C6_stages_no_guard_amended (st : HState) (d : List String) :
    preprocess st d = Except.ok Option.none
      ∧ inference st d = Except.ok Option.none
      ∧ postprocess st d = Except.ok Option.none :=
  ⟨rfl, rfl, rfl⟩

/-- C2: with the artifact present and the model-definition path an
existing file, `initialize` enumerates the classes declared directly in
the imported module: with exactly one, it instantiates it, loads the
saved state dict from the artifact path onto it, and succeeds; with zero
or two-or-more, it raises `AmbiguousModelDefinition` carrying the list of
candidates found. -/
theorem C2_model_definition (host : Host) (st0 : HState) (ctx : Context)
    (hart : host.isfile (pathJoin ctx.model_dir ctx.manifest.serializedFile) = true)
    (hdef : host.isfile (pathJoin ctx.model_dir (ctx.manifest.modelFile.getD "")) = true) :
    ((declaredClasses host ctx).length = 1 →
        (initializeHandler host st0 ctx).error = Option.none
          ∧ (initializeHandler host st0 ctx).state.initialized = true
          ∧ ∃ m, (initializeHandler host st0 ctx).state.model = Option.some m
              ∧ m.source = ModelSource.eager ((declaredClasses host ctx).headD "")
                  (pathJoin ctx.model_dir ctx.manifest.serializedFile)
                  (if host.cuda_available then "cuda" else "cpu"))
      ∧ ((declaredClasses host ctx).length ≠ 1 →
        (initializeHandler host st0 ctx).error
          = Option.some (InitError.ambiguousModelDefinition (declaredClasses host ctx))) := by
  unfold initializeHandler
  constructor
  · intro hone
    simp [hart, hdef, declaredClasses, list_classes_from_module] at hone ⊢
    simp [hone]
  · intro hne
    simp [hart, hdef, declaredClasses, list_classes_from_module] at hne ⊢
    simp [hne]

/-- C2 witness: a module with exactly one class succeeds; one with two
classes raises `AmbiguousModelDefinition` with both candidates. -/
theorem C2_model_definition_witness :
    ((declaredClasses hostEager ctxEager).length = 1
        ∧ (initializeHandler hostEager HState.mk0 ctxEager).error = Option.none)
      ∧ ((declaredClasses hostEagerTwo ctxEager).length = 2
        ∧ (initializeHandler hostEagerTwo HState.mk0 ctxEager).error
            = Option.some (InitError.ambiguousModelDefinition ["Net", "Net2"])) :=
  ⟨⟨by decide,
    ((C2_model_definition hostEager HState.mk0 ctxEager (by decide) (by decide)).1
      (by decide)).1⟩,
   ⟨by decide,
    (C2_model_definition hostEagerTwo HState.mk0 ctxEager (by decide) (by decide)).2
      (by decide)⟩⟩

namespace BaseHandler

/-- The probe outcome `initialize` ends up with: on a CUDA host the probe
is skipped, otherwise it runs on the initially resolved device and the
process environment. -/
def probeOutcome (host : Host) (ctx : Context) : ProbeResult :=
  if host.cuda_available then
    { device := resolveDevice host.cuda_available ctx.gpu_id
      env := host.env, mixEnabled := false }
  else
    probe host (resolveDevice host.cuda_available ctx.gpu_id) host.env

/-- The error `initialize` raises as a function of the host filesystem,
module enumeration and context alone. -/
def initOutcomeError (host : Host) (ctx : Context) : Option InitError :=
  if !(host.isfile (pathJoin ctx.model_dir ctx.manifest.serializedFile)) then
    Option.some (InitError.missingArtifact "Missing the model.pt file")
  else if host.isfile (pathJoin ctx.model_dir (ctx.manifest.modelFile.getD "")) then
    if (declaredClasses host ctx).length != 1 then
      Option.some (InitError.ambiguousModelDefinition (declaredClasses host ctx))
    else Option.none
  else Option.none

/-- `"cuda" == "cpu"` evaluates to `false`. -/
theorem cuda_beq_cpu : (("cuda" : String) == "cpu") = false := by decide

/-- `"cpu" == "cpu"` evaluates to `true`. -/
theorem cpu_beq_cpu : (("cpu" : String) == "cpu") = true := by decide

/-- The device field of the state after `initialize` is always the
probe-outcome device, whatever the starting state and whether the call
raised. -/
theorem initHandler_state_device (host : Host) (st0 : HState) (ctx : Context) :
    (initializeHandler host st0 ctx).state.device
      = Option.some (probeOutcome host ctx).device := by
  by_cases hc : host.cuda_available <;>
  by_cases hart : host.isfile (pathJoin ctx.model_dir ctx.manifest.serializedFile) <;>
  by_cases hdef : host.isfile (pathJoin ctx.model_dir (ctx.manifest.modelFile.getD "")) <;>
  by_cases hone : (declaredClasses host ctx).length = 1 <;>
    (simp [declaredClasses, list_classes_from_module] at hone;
     simp [initializeHandler, probeOutcome, list_classes_from_module, hc, hart, hdef, hone,
       cuda_beq_cpu, cpu_beq_cpu])

/-- The process environment after `initialize` is the probe outcome's,
whatever the starting state and whether the call raised. -/
theorem initHandler_env (host : Host) (st0 : HState) (ctx : Context) :
    (initializeHandler host st0 ctx).env = (probeOutcome host ctx).env := by
  by_cases hc : host.cuda_available <;>
  by_cases hart : host.isfile (pathJoin ctx.model_dir ctx.manifest.serializedFile) <;>
  by_cases hdef : host.isfile (pathJoin ctx.model_dir (ctx.manifest.modelFile.getD "")) <;>
  by_cases hone : (declaredClasses host ctx).length = 1 <;>
    (simp [declaredClasses, list_classes_from_module] at hone;
     simp [initializeHandler, probeOutcome, list_classes_from_module, hc, hart, hdef, hone,
       cuda_beq_cpu, cpu_beq_cpu])

/-- Whether auto-mixed-precision was enabled is the probe outcome's,
whatever the starting state and whether the call raised. -/
theorem initHandler_mix (host : Host) (st0 : HState) (ctx : Context) :
    (initializeHandler host st0 ctx).mixEnabled = (probeOutcome host ctx).mixEnabled := by
  by_cases hc : host.cuda_available <;>
  by_cases hart : host.isfile (pathJoin ctx.model_dir ctx.manifest.serializedFile) <;>
  by_cases hdef : host.isfile (pathJoin ctx.model_dir (ctx.manifest.modelFile.getD "")) <;>
  by_cases hone : (declaredClasses host ctx).length = 1 <;>
    (simp [declaredClasses, list_classes_from_module] at hone;
     simp [initializeHandler, probeOutcome, list_classes_from_module, hc, hart, hdef, hone,
       cuda_beq_cpu, cpu_beq_cpu])

/-- The raised error depends only on the filesystem, the module
enumeration and the context — never on the probe. -/
theorem initHandler_error (host : Host) (st0 : HState) (ctx : Context) :
    (initializeHandler host st0 ctx).error = initOutcomeError host ctx := by
  by_cases hart : host.isfile (pathJoin ctx.model_dir ctx.manifest.serializedFile) <;>
  by_cases hdef : host.isfile (pathJoin ctx.model_dir (ctx.manifest.modelFile.getD "")) <;>
  by_cases hone : (declaredClasses host ctx).length = 1 <;>
    (simp [declaredClasses, list_classes_from_module] at hone;
     simp [initializeHandler, initOutcomeError, declaredClasses, list_classes_from_module,
       hart, hdef, hone])

end BaseHandler

namespace BaseHandler

/-- When the vendor library import succeeds, the probe has already set the
device to the library's device, whichever later step fails. -/
theorem probe_device_of_ipex (host : Host) (d0 : String) (e0 : Env)
    (hip : host.ipex_available = true) :
    (probe host d0 e0).device = host.ipex_device := by
  unfold probe
  simp only [hip, if_true]
  split
  · rfl
  · split <;> rfl

/-- When the vendor library import fails, the probe leaves the device
untouched. -/
theorem probe_device_no_ipex (host : Host) (d0 : String) (e0 : Env)
    (hip : host.ipex_available = false) :
    (probe host d0 e0).device = d0 := by
  unfold probe
  simp [hip]

/-- When the vendor library is present, mixed-precision enabling does not
raise, and the `lscpu` parse succeeds, the probe reports mixed precision
enabled iff the disable override is unset and writes the affinity profile
selected by the threads-per-core test. -/
theorem probe_env_mix (host : Host) (d0 : String) (b : Bool)
    (hip : host.ipex_available = true)
    (hmix : host.mix_precision_fails = false)
    (hcore : perCoreIsOne host.lscpu_lines = Option.some b) :
    (probe host d0 host.env).mixEnabled
        = (envGet host.env "IPEX_DISABLE_MIXED_PRECISION" == Option.none)
      ∧ (probe host d0 host.env).env
        = envSet host.env "KMP_AFFINITY"
            (if b then "granularity=fine,verbose,compact"
             else "granularity=fine,verbose,compact,1,0") := by
  unfold probe
  simp [hip, hmix, hcore]

/-- Setting a key makes it retrievable. -/
theorem envGet_envSet (e : Env) (k v : String) :
    envGet (envSet e k v) k = Option.some v := by
  simp [envGet, envSet]

end BaseHandler

/-- Context with a `gpu_id` of 2. -/
def ctxGpu2 : Context := { ctxPlain with gpu_id := Option.some 2 }

/-- C3 counterexample: on a CUDA host with `gpu_id` absent, the device the
failing call resolves is the string `"cuda:None"` (Python `str(None)`
interpolated), not the default accelerator index 0 the claim promises. -/
theorem C3_counterexample :
    hostCuda.cuda_available = true
      ∧ ctxPlain.gpu_id = Option.none
      ∧ (initializeHandler hostCuda HState.mk0 ctxPlain).state.device
          = Option.some "cuda:None"
      ∧ resolveDevice hostCuda.cuda_available ctxPlain.gpu_id
          ≠ "cuda:" ++ toString (0 : Nat) := by
  refine ⟨rfl, rfl, by decide, by decide⟩

/-- C3 amended: the device-resolution step yields the general-purpose
processor when no accelerator is present; with an accelerator it yields
index `gpu_id` when provided, but the malformed string `"cuda:None"` —
not a default index — when absent; and the device `initialize` resolves
is a function of the host and context alone, so repeated calls with the
same context resolve the same device. -/
theorem C3_device_resolution (host : Host) (st0 st1 : HState) (ctx : Context) :
    (host.cuda_available = false →
        resolveDevice host.cuda_available ctx.gpu_id = "cpu")
      ∧ (∀ n : Nat, host.cuda_available = true → ctx.gpu_id = Option.some n →
          resolveDevice host.cuda_available ctx.gpu_id = "cuda:" ++ toString n)
      ∧ (host.cuda_available = true → ctx.gpu_id = Option.none →
          resolveDevice host.cuda_available ctx.gpu_id = "cuda:None")
      ∧ (initializeHandler host st0 ctx).state.device
          = (initializeHandler host st1 ctx).state.device := by
  refine ⟨?_, ?_, ?_, ?_⟩
  · intro h; simp [resolveDevice, h]
  · intro n h hg; simp [resolveDevice, h, hg, pyStr]
  · intro h hg; simp [resolveDevice, h, hg, pyStr]
  · rw [initHandler_state_device, initHandler_state_device]

/-- C3 witness: the three resolution cases and same-context idempotence at
concrete hosts. -/
theorem C3_device_resolution_witness :
    resolveDevice hostCpu.cuda_available ctxPlain.gpu_id = "cpu"
      ∧ resolveDevice hostCuda.cuda_available ctxGpu2.gpu_id
          = "cuda:" ++ toString (2 : Nat)
      ∧ resolveDevice hostCuda.cuda_available ctxPlain.gpu_id = "cuda:None"
      ∧ (initializeHandler hostCuda HState.mk0 ctxPlain).state.device
          = (initializeHandler hostCuda
              { HState.mk0 with initialized := true } ctxPlain).state.device :=
  ⟨(C3_device_resolution hostCpu HState.mk0 HState.mk0 ctxPlain).1 rfl,
   (C3_device_resolution hostCuda HState.mk0 HState.mk0 ctxGpu2).2.1 2 rfl rfl,
   (C3_device_resolution hostCuda HState.mk0 HState.mk0 ctxPlain).2.2.1 rfl rfl,
   (C3_device_resolution hostCuda HState.mk0
     { HState.mk0 with initialized := true } ctxPlain).2.2.2⟩

/-- C4 counterexample: with the vendor library importable but
`enable_auto_mix_precision` raising, the failure is swallowed and
initialization succeeds — yet the device is the vendor device
`"dpcpp"`, not the `"cpu"` resolved before the probe began, refuting
"leaves the previously resolved device exactly as it was". -/
theorem C4_counterexample :
    (initializeHandler hostIpexMixFail HState.mk0 ctxPlain).error = Option.none
      ∧ (initializeHandler hostIpexMixFail HState.mk0 ctxPlain).state.device
          = Option.some "dpcpp"
      ∧ resolveDevice hostIpexMixFail.cuda_available ctxPlain.gpu_id = "cpu"
      ∧ ("dpcpp" : String) ≠ "cpu" := by
  refine ⟨by decide, by decide, by decide, by decide⟩

/-- C4 amended: every probe failure is swallowed — the error `initialize`
raises is independent of the probe-related host configuration — but the
device is only left unchanged when the vendor-library import itself
fails; once the import has succeeded, the device has already been
switched to the vendor device and stays switched even if a later probe
step fails. -/
theorem C4_probe_swallowed (host : Host) (st0 : HState) (ctx : Context)
    (hcpu : host.cuda_available = false) :
    (∀ (b₁ b₂ : Bool) (d : String) (ls : List String) (e : Env),
        (initializeHandler
            { host with
              ipex_available := b₁, mix_precision_fails := b₂,
              ipex_device := d, lscpu_lines := ls, env := e } st0 ctx).error
          = (initializeHandler host st0 ctx).error)
      ∧ (host.ipex_available = false →
          (initializeHandler host st0 ctx).state.device
            = Option.some (resolveDevice host.cuda_available ctx.gpu_id))
      ∧ (host.ipex_available = true →
          (initializeHandler host st0 ctx).state.device
            = Option.some host.ipex_device) := by
  refine ⟨?_, ?_, ?_⟩
  · intro b₁ b₂ d ls e
    rw [initHandler_error, initHandler_error]
    rfl
  · intro hip
    rw [initHandler_state_device]
    simp [probeOutcome, hcpu, probe_device_no_ipex host _ _ hip]
  · intro hip
    rw [initHandler_state_device]
    simp [probeOutcome, hcpu, probe_device_of_ipex host _ _ hip]

/-- C4 witness: the swallowed mixed-precision failure at a concrete host,
with the device switched to the vendor device. -/
theorem C4_probe_swallowed_witness :
    hostIpexMixFail.cuda_available = false
      ∧ (initializeHandler
            { hostIpexMixFail with
              ipex_available := false,
              mix_precision_fails := false, ipex_device := "dpcpp",
              lscpu_lines := [], env := [] } HState.mk0 ctxPlain).error
          = (initializeHandler hostIpexMixFail HState.mk0 ctxPlain).error
      ∧ (initializeHandler hostIpexMixFail HState.mk0 ctxPlain).state.device
          = Option.some hostIpexMixFail.ipex_device :=
  ⟨rfl,
   (C4_probe_swallowed hostIpexMixFail HState.mk0 ctxPlain rfl).1
     false false "dpcpp" [] [],
   (C4_probe_swallowed hostIpexMixFail HState.mk0 ctxPlain rfl).2.2 rfl⟩

/-- C5: whenever `initialize` raises no error, the resulting state is
Initialized and holds a model handle that is in evaluation mode and
resides on the resolved device — on both the eager state-dict branch and
the torchscript branch. -/
theorem C5_eval_on_device (host : Host) (st0 : HState) (ctx : Context)
    (hok : (initializeHandler host st0 ctx).error = Option.none) :
    (initializeHandler host st0 ctx).state.initialized = true
      ∧ ∃ m, (initializeHandler host st0 ctx).state.model = Option.some m
          ∧ m.evalMode = true
          ∧ (initializeHandler host st0 ctx).state.device = Option.some m.device := by
  by_cases hart : host.isfile (pathJoin ctx.model_dir ctx.manifest.serializedFile)
  · by_cases hdef : host.isfile (pathJoin ctx.model_dir (ctx.manifest.modelFile.getD ""))
    · by_cases hone : (declaredClasses host ctx).length = 1
      · simp [declaredClasses, list_classes_from_module] at hone
        by_cases hc : host.cuda_available <;>
          simp [initializeHandler, list_classes_from_module, hc, hart, hdef, hone,
            cuda_beq_cpu, cpu_beq_cpu]
      · exfalso
        rw [initHandler_error] at hok
        simp [initOutcomeError, hart, hdef, hone] at hok
    · by_cases hc : host.cuda_available <;>
        simp [initializeHandler, hc, hart, hdef, cuda_beq_cpu, cpu_beq_cpu]
  · exfalso
    rw [initHandler_error] at hok
    simp [initOutcomeError, hart] at hok

/-- C5 witness: a concrete successful torchscript initialization. -/
theorem C5_eval_on_device_witness :
    (initializeHandler hostCpu HState.mk0 ctxPlain).error = Option.none
      ∧ ((initializeHandler hostCpu HState.mk0 ctxPlain).state.initialized = true
        ∧ ∃ m, (initializeHandler hostCpu HState.mk0 ctxPlain).state.model
              = Option.some m
            ∧ m.evalMode = true
            ∧ (initializeHandler hostCpu HState.mk0 ctxPlain).state.device
              = Option.some m.device) :=
  ⟨by decide, C5_eval_on_device hostCpu HState.mk0 ctxPlain (by decide)⟩

/-- C7: when `model_dir/index_to_name.json` is absent (and the other steps
are healthy: artifact present and, if the model-definition branch is
taken, exactly one class), `initialize` still succeeds, retains no label
mapping, and only logs the missing-mapping warning. -/
theorem C7_missing_mapping (host : Host) (st0 : HState) (ctx : Context)
    (hart : host.isfile (pathJoin ctx.model_dir ctx.manifest.serializedFile) = true)
    (hfmt : host.isfile (pathJoin ctx.model_dir (ctx.manifest.modelFile.getD "")) = true →
      (declaredClasses host ctx).length = 1)
    (hmap : host.isfile (pathJoin ctx.model_dir "index_to_name.json") = false) :
    (initializeHandler host st0 ctx).error = Option.none
      ∧ (initializeHandler host st0 ctx).state.mapping = Option.none
      ∧ (initializeHandler host st0 ctx).state.initialized = true
      ∧ (initializeHandler host st0 ctx).warnings = [missingMappingWarning] := by
  by_cases hdef : host.isfile (pathJoin ctx.model_dir (ctx.manifest.modelFile.getD ""))
  · have hone := hfmt hdef
    simp [declaredClasses, list_classes_from_module] at hone
    by_cases hc : host.cuda_available <;>
      simp [initializeHandler, list_classes_from_module, hc, hart, hdef, hone, hmap,
        cuda_beq_cpu, cpu_beq_cpu]
  · by_cases hc : host.cuda_available <;>
      simp [initializeHandler, hc, hart, hdef, hmap, cuda_beq_cpu, cpu_beq_cpu]

/-- C7 witness: `hostCpu`'s filesystem has the artifact but no
`index_to_name.json`. -/
theorem C7_missing_mapping_witness :
    hostCpu.isfile (pathJoin ctxPlain.model_dir "index_to_name.json") = false
      ∧ ((initializeHandler hostCpu HState.mk0 ctxPlain).error = Option.none
        ∧ (initializeHandler hostCpu HState.mk0 ctxPlain).state.mapping = Option.none
        ∧ (initializeHandler hostCpu HState.mk0 ctxPlain).state.initialized = true
        ∧ (initializeHandler hostCpu HState.mk0 ctxPlain).warnings
            = [missingMappingWarning]) :=
  ⟨by decide,
   C7_missing_mapping hostCpu HState.mk0 ctxPlain (by decide)
     (fun h => absurd h (by decide)) (by decide)⟩

/-- C8: when `model_dir/index_to_name.json` exists and parses to the
mapping with entries "0" to "cat" and "1" to "dog", a successful
`initialize` retains a mapping in which index 0 looks up to "cat" and
index 1 to "dog". -/
theorem C8_mapping_content (host : Host) (st0 : HState) (ctx : Context)
    (hart : host.isfile (pathJoin ctx.model_dir ctx.manifest.serializedFile) = true)
    (hfmt : host.isfile (pathJoin ctx.model_dir (ctx.manifest.modelFile.getD "")) = true →
      (declaredClasses host ctx).length = 1)
    (hmap : host.isfile (pathJoin ctx.model_dir "index_to_name.json") = true)
    (hjson : host.json_content (pathJoin ctx.model_dir "index_to_name.json")
        = [("0", "cat"), ("1", "dog")]) :
    (initializeHandler host st0 ctx).error = Option.none
      ∧ ∃ mp, (initializeHandler host st0 ctx).state.mapping = Option.some mp
          ∧ mappingLookup mp "0" = Option.some "cat"
          ∧ mappingLookup mp "1" = Option.some "dog" := by
  by_cases hdef : host.isfile (pathJoin ctx.model_dir (ctx.manifest.modelFile.getD ""))
  · have hone := hfmt hdef
    simp [declaredClasses, list_classes_from_module] at hone
    by_cases hc : host.cuda_available <;>
      simp [initializeHandler, list_classes_from_module, hc, hart, hdef, hone, hmap,
        hjson, mappingLookup, cuda_beq_cpu, cpu_beq_cpu]
  · by_cases hc : host.cuda_available <;>
      simp [initializeHandler, hc, hart, hdef, hmap, hjson, mappingLookup,
        cuda_beq_cpu, cpu_beq_cpu]

/-- C8 witness: `hostMapping` carries the concrete two-entry mapping
file. -/
theorem C8_mapping_content_witness :
    hostMapping.isfile (pathJoin ctxPlain.model_dir "index_to_name.json") = true
      ∧ ((initializeHandler hostMapping HState.mk0 ctxPlain).error = Option.none
        ∧ ∃ mp, (initializeHandler hostMapping HState.mk0 ctxPlain).state.mapping
              = Option.some mp
            ∧ mappingLookup mp "0" = Option.some "cat"
            ∧ mappingLookup mp "1" = Option.some "dog") :=
  ⟨by decide,
   C8_mapping_content hostMapping HState.mk0 ctxPlain (by decide)
     (fun h => absurd h (by decide)) (by decide) (by decide)⟩

/-- C9: on the cpu path with the vendor library present and the probe's
own operations healthy (mixed-precision enabling does not raise, the
`lscpu` threads-per-core parse succeeds), auto-mixed-precision is enabled
iff `IPEX_DISABLE_MIXED_PRECISION` is unset, and `KMP_AFFINITY` is
written with exactly one of the two fixed profiles — the no-hyperthreading
one when threads per core equals 1, the other otherwise. -/
theorem C9_cpu_ipex_env (host : Host) (st0 : HState) (ctx : Context) (b : Bool)
    (hcpu : host.cuda_available = false)
    (hipex : host.ipex_available = true)
    (hmix : host.mix_precision_fails = false)
    (hcore : perCoreIsOne host.lscpu_lines = Option.some b) :
    ((initializeHandler host st0 ctx).mixEnabled = true
        ↔ envGet host.env "IPEX_DISABLE_MIXED_PRECISION" = Option.none)
      ∧ envGet (initializeHandler host st0 ctx).env "KMP_AFFINITY"
          = Option.some (if b then "granularity=fine,verbose,compact"
              else "granularity=fine,verbose,compact,1,0") := by
  have hp := probe_env_mix host (resolveDevice host.cuda_available ctx.gpu_id) b
    hipex hmix hcore
  rw [hcpu] at hp
  constructor
  · rw [initHandler_mix]
    simp [probeOutcome, hcpu, hp.1]
  · rw [initHandler_env]
    simp [probeOutcome, hcpu, hp.2, envGet_envSet]

/-- C9 witness: `hostIpex` reports 2 threads per core, so the
hyperthreading profile is written; mixed precision is enabled since the
override is unset. -/
theorem C9_cpu_ipex_env_witness :
    hostIpex.cuda_available = false
      ∧ hostIpex.ipex_available = true
      ∧ hostIpex.mix_precision_fails = false
      ∧ perCoreIsOne hostIpex.lscpu_lines = Option.some false
      ∧ (((initializeHandler hostIpex HState.mk0 ctxPlain).mixEnabled = true
            ↔ envGet hostIpex.env "IPEX_DISABLE_MIXED_PRECISION" = Option.none)
        ∧ envGet (initializeHandler hostIpex HState.mk0 ctxPlain).env "KMP_AFFINITY"
            = Option.some (if false then "granularity=fine,verbose,compact"
                else "granularity=fine,verbose,compact,1,0")) :=
  ⟨rfl, rfl, rfl, by decide,
   C9_cpu_ipex_env hostIpex HState.mk0 ctxPlain false rfl rfl rfl (by decide)⟩
